import Mathlib

/-!
Verification of `Code/GUI/BetterLabeledCheckbox.py` from the RenderPipeline
repository: a composite GUI widget pairing a checkbox with a text label.

The widget's own code (`BetterLabeledCheckbox`) is embedded from the source.
The two child primitives, `BetterCheckbox` and `BetterOnscreenText`, are part
of the repository but their files are not in the provided sources, so they are
modelled from the specification as records of the arguments their constructors
receive, together with the scene-graph node state this component reads and
writes (event bindings on the checkbox's node, the foreground-color property
of the label's node).

Numeric screen coordinates and color components are modelled as exact
rationals / integers; Python's floor division `//` is `Int.fdiv`.
-/

namespace RenderPipeline

/-- A 4-component RGBA color, the value assigned to a text node's `"fg"`
property. Color literals such as `0.5` are modelled exactly as rationals. -/
structure Color4 where
  r : ℚ
  g : ℚ
  b : ℚ
  a : ℚ
  deriving DecidableEq

/-- panda3d `Vec3`, used by this component only as a 3-component RGB color. -/
structure Vec3 where
  x : ℚ
  y : ℚ
  z : ℚ
  deriving DecidableEq

/-- panda3d `Vec3(v)` with one scalar broadcasts it to every component, so
`Vec3(1)` is the opaque-white color (1, 1, 1). -/
def Vec3.broadcast (v : ℚ) : Vec3 :=
  ⟨v, v, v⟩

/-- The two `DirectGuiGlobals` event names the constructor binds
(source lines 33-34). -/
inductive DGGEvent where
  | WITHIN
  | WITHOUT
  deriving DecidableEq

/-- Tags naming the two handler methods of `BetterLabeledCheckbox` that get
bound to the checkbox's node. -/
inductive HandlerTag where
  | onNodeEnter
  | onNodeLeave
  deriving DecidableEq

/-- Modelled from the spec: the checkbox primitive "exposes a scene-graph node
that can register region-enter/region-exit event bindings". This is the
`_node` of `BetterCheckbox`, whose file `BetterCheckbox.py` is not among the
provided sources; it records its event bindings in order. -/
structure GuiNode where
  bindings : List (DGGEvent × HandlerTag)
  deriving DecidableEq

/-- `node.bind(event, handler)`: registers a handler for an event on the
node. -/
def GuiNode.bind (n : GuiNode) (e : DGGEvent) (t : HandlerTag) : GuiNode :=
  ⟨n.bindings ++ [(e, t)]⟩

/-- Modelled from the spec: the label primitive's underlying text node,
exposing the `"fg"` (foreground color) property that the hover handlers
write. This is the `_node` of `BetterOnscreenText`, whose file
`BetterOnscreenText.py` is not among the provided sources. -/
structure TextNode where
  fg : Color4
  deriving DecidableEq

/-- The keyword arguments `BetterLabeledCheckbox.__init__` passes to the
`BetterCheckbox` constructor (source lines 25-28). -/
structure BetterCheckboxArgs (π κ α : Type) where
  parent : Option π
  x : Int
  y : Int
  callback : Option κ
  extra_args : List α
  checked : Bool
  radio : Bool
  expand_width : Int
  deriving DecidableEq

/-- Modelled from the spec: the checkbox primitive, "a toggle control with
position, checked state, callback, and optional radio exclusivity semantics",
holding the configuration it was constructed with and its scene-graph node.
Its file `BetterCheckbox.py` is not among the provided sources. -/
structure BetterCheckbox (π κ α : Type) where
  parent : Option π
  x : Int
  y : Int
  callback : Option κ
  extra_args : List α
  checked : Bool
  radio : Bool
  expand_width : Int
  _node : GuiNode
  deriving DecidableEq

/-- Modelled from the spec: the checkbox primitive's constructor records the
arguments it is given; its node starts with no event bindings
(`BetterCheckbox.py` is not among the provided sources). -/
def BetterCheckbox.construct {π κ α : Type} (a : BetterCheckboxArgs π κ α) :
    BetterCheckbox π κ α :=
  ⟨a.parent, a.x, a.y, a.callback, a.extra_args, a.checked, a.radio,
   a.expand_width, ⟨[]⟩⟩

/-- The keyword arguments `BetterLabeledCheckbox.__init__` passes to the
`BetterOnscreenText` constructor (source lines 29-31). -/
structure BetterOnscreenTextArgs (π : Type) where
  x : Int
  y : Int
  text : String
  align : String
  parent : Option π
  size : Int
  color : Vec3
  may_change : Bool
  deriving DecidableEq

/-- Modelled from the spec: the label primitive, "a positioned, styleable,
mutable text node exposing a foreground-color property", holding the
configuration it was constructed with and its underlying text node. Its file
`BetterOnscreenText.py` is not among the provided sources. -/
structure BetterOnscreenText (π : Type) where
  x : Int
  y : Int
  text : String
  align : String
  parent : Option π
  size : Int
  color : Vec3
  may_change : Bool
  _node : TextNode
  deriving DecidableEq

/-- Modelled from the spec: the label primitive's constructor records the
arguments it is given and initializes its node's foreground color from the
given 3-component color, fully opaque (`BetterOnscreenText.py` is not among
the provided sources). -/
def BetterOnscreenText.construct {π : Type} (a : BetterOnscreenTextArgs π) :
    BetterOnscreenText π :=
  ⟨a.x, a.y, a.text, a.align, a.parent, a.size, a.color, a.may_change,
   ⟨⟨a.color.x, a.color.y, a.color.z, 1⟩⟩⟩

/-- The state of a `BetterLabeledCheckbox`: it owns one checkbox and one
label (source lines 25-31). -/
structure BetterLabeledCheckbox (π κ α : Type) where
  _checkbox : BetterCheckbox π κ α
  _text : BetterOnscreenText π
  deriving DecidableEq

/-- The argument record built for the checkbox (source lines 25-28), after
the `chb_args is None` normalization of lines 19-20. -/
def chbArgsOf {π κ α : Type} (parent : Option π) (x y : Int)
    (chb_callback : Option κ) (chb_args : Option (List α)) (chb_checked : Bool)
    (radio : Bool) (expand_width : Int) : BetterCheckboxArgs π κ α :=
  ⟨parent, x, y, chb_callback, chb_args.getD [], chb_checked, radio,
   expand_width⟩

/-- The argument record built for the label (source lines 29-31), after the
`text_color is None` normalization of lines 22-23; `text_size // 4` is
Python floor division. -/
def txtArgsOf {π : Type} (parent : Option π) (x y : Int) (text : String)
    (text_size : Int) (text_color : Option Vec3) : BetterOnscreenTextArgs π :=
  ⟨x + 26, y + 10 + Int.fdiv text_size 4, text, "left", parent, text_size,
   text_color.getD (Vec3.broadcast 1), true⟩

/-- Source lines 33-34: `self._checkbox._node.bind(DGG.WITHIN,
self._on_node_enter)` then `self._checkbox._node.bind(DGG.WITHOUT,
self._on_node_leave)`. -/
def bindHoverHandlers {π κ α : Type} (c : BetterCheckbox π κ α) :
    BetterCheckbox π κ α :=
  ⟨c.parent, c.x, c.y, c.callback, c.extra_args, c.checked, c.radio,
   c.expand_width,
   (c._node.bind DGGEvent.WITHIN HandlerTag.onNodeEnter).bind
     DGGEvent.WITHOUT HandlerTag.onNodeLeave⟩

/-- `BetterLabeledCheckbox.__init__` (source lines 15-34): normalizes the
`None` defaults for `chb_args` and `text_color`, constructs the checkbox and
the label, and binds the two hover handlers on the checkbox's node. The
Python defaults are `parent=None, x=0, y=0, chb_callback=None, chb_args=None,
chb_checked=True, text="", text_size=18, radio=False, text_color=None,
expand_width=100`. -/
def BetterLabeledCheckbox.init {π κ α : Type} (parent : Option π) (x y : Int)
    (chb_callback : Option κ) (chb_args : Option (List α)) (chb_checked : Bool)
    (text : String) (text_size : Int) (radio : Bool)
    (text_color : Option Vec3) (expand_width : Int) :
    BetterLabeledCheckbox π κ α :=
  ⟨bindHoverHandlers (BetterCheckbox.construct
      (chbArgsOf parent x y chb_callback chb_args chb_checked radio
        expand_width)),
   BetterOnscreenText.construct (txtArgsOf parent x y text text_size
     text_color)⟩

/-- `BetterLabeledCheckbox.__init__` with the two primitive constructors left
abstract and possibly failing: the component calls them in order and performs
no validation or handling of its own, so any failure is the primitives' own,
propagated unchanged (spec section 4.1, error conditions). -/
def BetterLabeledCheckbox.initExcept {π κ α ε : Type}
    (mkChb : BetterCheckboxArgs π κ α → Except ε (BetterCheckbox π κ α))
    (mkTxt : BetterOnscreenTextArgs π → Except ε (BetterOnscreenText π))
    (parent : Option π) (x y : Int) (chb_callback : Option κ)
    (chb_args : Option (List α)) (chb_checked : Bool) (text : String)
    (text_size : Int) (radio : Bool) (text_color : Option Vec3)
    (expand_width : Int) : Except ε (BetterLabeledCheckbox π κ α) :=
  match mkChb (chbArgsOf parent x y chb_callback chb_args chb_checked radio
      expand_width) with
  | Except.error e => Except.error e
  | Except.ok c =>
    match mkTxt (txtArgsOf parent x y text text_size text_color) with
    | Except.error e => Except.error e
    | Except.ok t => Except.ok ⟨bindHoverHandlers c, t⟩

/-- `_on_node_enter` (source lines 37-41): sets the label node's `"fg"` to
(0.5, 0.5, 0.5, 1.0). The `*args` are accepted and ignored; the `print` call
is console output only and touches no widget state; the Python method returns
`None`, so it is modelled as a pure state transformer. -/
def BetterLabeledCheckbox._on_node_enter {π κ α β : Type}
    (self : BetterLabeledCheckbox π κ α) (_args : List β) :
    BetterLabeledCheckbox π κ α :=
  ⟨self._checkbox,
   ⟨self._text.x, self._text.y, self._text.text, self._text.align,
    self._text.parent, self._text.size, self._text.color,
    self._text.may_change, ⟨⟨0.5, 0.5, 0.5, 1.0⟩⟩⟩⟩

/-- `_on_node_leave` (source lines 43-47): sets the label node's `"fg"` to
(0.4, 0.4, 0.4, 1.0); otherwise as `_on_node_enter`. -/
def BetterLabeledCheckbox._on_node_leave {π κ α β : Type}
    (self : BetterLabeledCheckbox π κ α) (_args : List β) :
    BetterLabeledCheckbox π κ α :=
  ⟨self._checkbox,
   ⟨self._text.x, self._text.y, self._text.text, self._text.align,
    self._text.parent, self._text.size, self._text.color,
    self._text.may_change, ⟨⟨0.4, 0.4, 0.4, 1.0⟩⟩⟩⟩

/-- `get_checkbox` (source lines 49-51) in state-passing form: returns the
owned checkbox and the unchanged state. -/
def BetterLabeledCheckbox.get_checkbox {π κ α : Type}
    (self : BetterLabeledCheckbox π κ α) :
    BetterCheckbox π κ α × BetterLabeledCheckbox π κ α :=
  (self._checkbox, self)

/-- `get_label` (source lines 53-55) in state-passing form: returns the owned
label and the unchanged state. -/
def BetterLabeledCheckbox.get_label {π κ α : Type}
    (self : BetterLabeledCheckbox π κ α) :
    BetterOnscreenText π × BetterLabeledCheckbox π κ α :=
  (self._text, self)

/-- Runs the handler a tag names, with the given `*args`. -/
def BetterLabeledCheckbox.runHandler {π κ α β : Type}
    (self : BetterLabeledCheckbox π κ α) (t : HandlerTag) (args : List β) :
    BetterLabeledCheckbox π κ α :=
  match t with
  | HandlerTag.onNodeEnter => self._on_node_enter args
  | HandlerTag.onNodeLeave => self._on_node_leave args

/-- The host GUI event system's dispatch of one event: every handler bound to
that event on the checkbox's node runs, in binding order (spec sections 2
and 6). -/
def BetterLabeledCheckbox.fireEvent {π κ α β : Type}
    (self : BetterLabeledCheckbox π κ α) (e : DGGEvent) (args : List β) :
    BetterLabeledCheckbox π κ α :=
  self._checkbox._node.bindings.foldl
    (fun s b => if b.1 = e then s.runHandler b.2 args else s) self

/-- A sequence of hover events with their argument lists, dispatched in
order. -/
def BetterLabeledCheckbox.fireEvents {π κ α β : Type}
    (self : BetterLabeledCheckbox π κ α) (evs : List (DGGEvent × List β)) :
    BetterLabeledCheckbox π κ α :=
  evs.foldl (fun s ev => s.fireEvent ev.1 ev.2) self

/-- A `BetterLabeledCheckbox` constructed with every Python default
argument. -/
def defaultWidget : BetterLabeledCheckbox Unit Unit Unit :=
  BetterLabeledCheckbox.init none 0 0 none none true "" 18 false none 100

/-- C1: for every x, y, text_size and every other constructor input, with the
color given explicitly, the label is created at
(x + 26, y + 10 + floor(text_size / 4)), left-aligned, with the given text,
size and color, flagged as mutable, and its node's foreground color set from
that color, fully opaque. -/
theorem claim_C1 {π κ α : Type} (parent : Option π) (x y : Int)
    (chb_callback : Option κ) (chb_args : Option (List α)) (chb_checked : Bool)
    (text : String) (text_size : Int) (radio : Bool) (c : Vec3)
    (expand_width : Int) :
    (BetterLabeledCheckbox.init parent x y chb_callback chb_args chb_checked
        text text_size radio (some c) expand_width)._text =
      ⟨x + 26, y + 10 + Int.fdiv text_size 4, text, "left", parent, text_size,
       c, true, ⟨⟨c.x, c.y, c.z, 1⟩⟩⟩ :=
  rfl

/-- C2: invoking the hover-enter handler sets the label node's foreground
color to exactly (0.5, 0.5, 0.5, 1.0), for every text_color passed at
construction and every argument list. -/
theorem claim_C2 {π κ α β : Type} (parent : Option π) (x y : Int)
    (chb_callback : Option κ) (chb_args : Option (List α)) (chb_checked : Bool)
    (text : String) (text_size : Int) (radio : Bool)
    (text_color : Option Vec3) (expand_width : Int) (args : List β) :
    ((BetterLabeledCheckbox.init parent x y chb_callback chb_args chb_checked
        text text_size radio text_color
        expand_width)._on_node_enter args)._text._node.fg =
      ⟨0.5, 0.5, 0.5, 1.0⟩ :=
  rfl

/-- C3: invoking the hover-leave handler sets the label node's foreground
color to exactly (0.4, 0.4, 0.4, 1.0), for every text_color passed at
construction; and on an arbitrary widget state (so whatever color is stored),
each handler produces its fixed gray, reading nothing of the construction-time
color. -/
theorem claim_C3 {π κ α β : Type} (parent : Option π) (x y : Int)
    (chb_callback : Option κ) (chb_args : Option (List α)) (chb_checked : Bool)
    (text : String) (text_size : Int) (radio : Bool)
    (text_color : Option Vec3) (expand_width : Int) (args : List β)
    (w : BetterLabeledCheckbox π κ α) :
    ((BetterLabeledCheckbox.init parent x y chb_callback chb_args chb_checked
        text text_size radio text_color
        expand_width)._on_node_leave args)._text._node.fg =
      ⟨0.4, 0.4, 0.4, 1.0⟩ ∧
    (w._on_node_leave args)._text._node.fg = ⟨0.4, 0.4, 0.4, 1.0⟩ ∧
    (w._on_node_enter args)._text._node.fg = ⟨0.5, 0.5, 0.5, 1.0⟩ :=
  ⟨rfl, rfl, rfl⟩

/-- C4: constructing with chb_args = None yields a state identical to
constructing with chb_args an empty argument list, all other inputs held
equal. -/
theorem claim_C4 {π κ α : Type} (parent : Option π) (x y : Int)
    (chb_callback : Option κ) (chb_checked : Bool) (text : String)
    (text_size : Int) (radio : Bool) (text_color : Option Vec3)
    (expand_width : Int) :
    (BetterLabeledCheckbox.init parent x y chb_callback none chb_checked text
        text_size radio text_color expand_width :
      BetterLabeledCheckbox π κ α) =
      BetterLabeledCheckbox.init parent x y chb_callback (some ([] : List α))
        chb_checked text text_size radio text_color expand_width :=
  rfl

/-- C5: constructing with text_color = None yields a state identical to
constructing with text_color equal to opaque white (1, 1, 1), all other
inputs held equal. -/
theorem claim_C5 {π κ α : Type} (parent : Option π) (x y : Int)
    (chb_callback : Option κ) (chb_args : Option (List α)) (chb_checked : Bool)
    (text : String) (text_size : Int) (radio : Bool) (expand_width : Int) :
    (BetterLabeledCheckbox.init parent x y chb_callback chb_args chb_checked
        text text_size radio none expand_width :
      BetterLabeledCheckbox π κ α) =
      BetterLabeledCheckbox.init parent x y chb_callback chb_args chb_checked
        text text_size radio (some ⟨1, 1, 1⟩) expand_width :=
  rfl

/-- C6 counterexample: with all-default arguments the label's x position is
26 = 0 + 26, not 0, so the claimed label position (0, 14) is wrong in its x
component (the rest of the claim holds). -/
theorem claim_C6_counterexample :
    ¬ (defaultWidget._checkbox.checked = true ∧
       defaultWidget._text.text = "" ∧
       defaultWidget._text.color = ⟨1, 1, 1⟩ ∧
       defaultWidget._text.x = 0 ∧ defaultWidget._text.y = 14) := by
  decide

/-- C6 amended: constructing with all-default arguments yields a checked
checkbox at (0, 0), and a label with empty text and default white color at
position (26, 14) = (0 + 26, 0 + 10 + floor(18 / 4)). -/
theorem claim_C6 :
    defaultWidget._checkbox.checked = true ∧
    defaultWidget._checkbox.x = 0 ∧ defaultWidget._checkbox.y = 0 ∧
    defaultWidget._text.text = "" ∧
    defaultWidget._text.color = ⟨1, 1, 1⟩ ∧
    defaultWidget._text.x = 26 ∧ defaultWidget._text.y = 14 := by
  decide

/-- C7: get_checkbox and get_label return exactly the checkbox and label
created during construction, leave the state unchanged, and repeated calls
return the same values. -/
theorem claim_C7 {π κ α : Type} (parent : Option π) (x y : Int)
    (chb_callback : Option κ) (chb_args : Option (List α)) (chb_checked : Bool)
    (text : String) (text_size : Int) (radio : Bool)
    (text_color : Option Vec3) (expand_width : Int) :
    let w := BetterLabeledCheckbox.init parent x y chb_callback chb_args
      chb_checked text text_size radio text_color expand_width
    (w.get_checkbox).1 = w._checkbox ∧ (w.get_checkbox).2 = w ∧
    (w.get_label).1 = w._text ∧ (w.get_label).2 = w ∧
    ((w.get_checkbox).2).get_checkbox = w.get_checkbox ∧
    ((w.get_label).2).get_label = w.get_label :=
  ⟨rfl, rfl, rfl, rfl, rfl, rfl⟩

/-- C8: each hover handler writes only the label node's foreground color: the
whole checkbox (configuration, checked state and bindings included) and every
other label field are unchanged, and the foreground color becomes the
handler's fixed gray. -/
theorem claim_C8 {π κ α β : Type} (w : BetterLabeledCheckbox π κ α)
    (args : List β) :
    ((w._on_node_enter args)._checkbox = w._checkbox ∧
     (w._on_node_enter args)._text.x = w._text.x ∧
     (w._on_node_enter args)._text.y = w._text.y ∧
     (w._on_node_enter args)._text.text = w._text.text ∧
     (w._on_node_enter args)._text.align = w._text.align ∧
     (w._on_node_enter args)._text.parent = w._text.parent ∧
     (w._on_node_enter args)._text.size = w._text.size ∧
     (w._on_node_enter args)._text.color = w._text.color ∧
     (w._on_node_enter args)._text.may_change = w._text.may_change ∧
     (w._on_node_enter args)._text._node.fg = ⟨0.5, 0.5, 0.5, 1.0⟩) ∧
    ((w._on_node_leave args)._checkbox = w._checkbox ∧
     (w._on_node_leave args)._text.x = w._text.x ∧
     (w._on_node_leave args)._text.y = w._text.y ∧
     (w._on_node_leave args)._text.text = w._text.text ∧
     (w._on_node_leave args)._text.align = w._text.align ∧
     (w._on_node_leave args)._text.parent = w._text.parent ∧
     (w._on_node_leave args)._text.size = w._text.size ∧
     (w._on_node_leave args)._text.color = w._text.color ∧
     (w._on_node_leave args)._text.may_change = w._text.may_change ∧
     (w._on_node_leave args)._text._node.fg = ⟨0.4, 0.4, 0.4, 1.0⟩) :=
  ⟨⟨rfl, rfl, rfl, rfl, rfl, rfl, rfl, rfl, rfl, rfl⟩,
   ⟨rfl, rfl, rfl, rfl, rfl, rfl, rfl, rfl, rfl, rfl⟩⟩

/-- C9: the constructor raises nothing of its own and validates nothing: with
the two primitive constructors abstract and fallible, any construction error
is one of the primitives' own errors propagated unchanged, and whenever both
primitives succeed, construction succeeds with their results wired up. -/
theorem claim_C9 {π κ α ε : Type}
    (mkChb : BetterCheckboxArgs π κ α → Except ε (BetterCheckbox π κ α))
    (mkTxt : BetterOnscreenTextArgs π → Except ε (BetterOnscreenText π))
    (parent : Option π) (x y : Int) (chb_callback : Option κ)
    (chb_args : Option (List α)) (chb_checked : Bool) (text : String)
    (text_size : Int) (radio : Bool) (text_color : Option Vec3)
    (expand_width : Int) :
    (∀ e, BetterLabeledCheckbox.initExcept mkChb mkTxt parent x y chb_callback
        chb_args chb_checked text text_size radio text_color expand_width =
        Except.error e →
      mkChb (chbArgsOf parent x y chb_callback chb_args chb_checked radio
          expand_width) = Except.error e ∨
      mkTxt (txtArgsOf parent x y text text_size text_color) =
        Except.error e) ∧
    (∀ c t, mkChb (chbArgsOf parent x y chb_callback chb_args chb_checked
          radio expand_width) = Except.ok c →
      mkTxt (txtArgsOf parent x y text text_size text_color) = Except.ok t →
      BetterLabeledCheckbox.initExcept mkChb mkTxt parent x y chb_callback
        chb_args chb_checked text text_size radio text_color expand_width =
        Except.ok ⟨bindHoverHandlers c, t⟩) := by
  constructor
  · intro e h
    cases hc : mkChb (chbArgsOf parent x y chb_callback chb_args chb_checked
        radio expand_width) with
    | error e1 =>
      simp only [BetterLabeledCheckbox.initExcept, hc,
        Except.error.injEq] at h
      subst h
      exact Or.inl rfl
    | ok c =>
      cases ht : mkTxt (txtArgsOf parent x y text text_size text_color) with
      | error e2 =>
        simp only [BetterLabeledCheckbox.initExcept, hc, ht,
          Except.error.injEq] at h
        subst h
        exact Or.inr rfl
      | ok t =>
        simp only [BetterLabeledCheckbox.initExcept, hc, ht] at h
        exact Except.noConfusion h
  · intro c t hc ht
    simp only [BetterLabeledCheckbox.initExcept, hc, ht]

/-- A concrete always-failing checkbox constructor, standing for a primitive
that rejects its inputs (e.g. an invalid parent). -/
def failingMkChb :
    BetterCheckboxArgs Unit Unit Unit →
      Except String (BetterCheckbox Unit Unit Unit) :=
  fun _ => Except.error "invalid parent"

/-- A concrete succeeding label constructor: the spec-modelled primitive. -/
def okMkTxt :
    BetterOnscreenTextArgs Unit → Except String (BetterOnscreenText Unit) :=
  fun a => Except.ok (BetterOnscreenText.construct a)

/-- A concrete succeeding checkbox constructor: the spec-modelled
primitive. -/
def okMkChb :
    BetterCheckboxArgs Unit Unit Unit →
      Except String (BetterCheckbox Unit Unit Unit) :=
  fun a => Except.ok (BetterCheckbox.construct a)

/-- C9 witness: at a concrete failing checkbox constructor the observed
construction error is the checkbox primitive's own error, and with both
primitives succeeding, construction succeeds. -/
theorem claim_C9_witness :
    (failingMkChb (chbArgsOf none 0 0 none none true false 100) =
        Except.error "invalid parent" ∨
      okMkTxt (txtArgsOf none 0 0 "" 18 none) =
        Except.error "invalid parent") ∧
    BetterLabeledCheckbox.initExcept okMkChb okMkTxt none 0 0 none none true
        "" 18 false none 100 =
      Except.ok
        ⟨bindHoverHandlers (BetterCheckbox.construct
            (chbArgsOf none 0 0 none none true false 100)),
         BetterOnscreenText.construct (txtArgsOf none 0 0 "" 18 none)⟩ :=
  ⟨(claim_C9 failingMkChb okMkTxt none 0 0 none none true "" 18 false none
      100).1 "invalid parent" rfl,
   (claim_C9 okMkChb okMkTxt none 0 0 none none true "" 18 false none
      100).2 _ _ rfl rfl⟩

/-- Neither handler touches the owned checkbox. -/
theorem runHandler_checkbox {π κ α β : Type}
    (s : BetterLabeledCheckbox π κ α) (t : HandlerTag) (args : List β) :
    (s.runHandler t args)._checkbox = s._checkbox := by
  cases t <;> rfl

/-- Folding the dispatch step over any binding list never touches the owned
checkbox. -/
theorem foldl_handlers_checkbox {π κ α β : Type} (e : DGGEvent)
    (args : List β) (l : List (DGGEvent × HandlerTag))
    (s : BetterLabeledCheckbox π κ α) :
    (l.foldl (fun s b => if b.1 = e then s.runHandler b.2 args else s)
        s)._checkbox = s._checkbox := by
  induction l generalizing s with
  | nil => rfl
  | cons b l ih =>
    rw [List.foldl_cons]
    by_cases hb : b.1 = e
    · rw [if_pos hb, ih, runHandler_checkbox]
    · rw [if_neg hb, ih]

/-- Dispatching one event never touches the owned checkbox. -/
theorem fireEvent_checkbox {π κ α β : Type}
    (s : BetterLabeledCheckbox π κ α) (e : DGGEvent) (args : List β) :
    (s.fireEvent e args)._checkbox = s._checkbox :=
  foldl_handlers_checkbox e args s._checkbox._node.bindings s

/-- Dispatching a whole event sequence never touches the owned checkbox. -/
theorem fireEvents_checkbox {π κ α β : Type}
    (evs : List (DGGEvent × List β)) (s : BetterLabeledCheckbox π κ α) :
    (s.fireEvents evs)._checkbox = s._checkbox := by
  induction evs generalizing s with
  | nil => rfl
  | cons ev evs ih =>
    show ((s.fireEvent ev.1 ev.2).fireEvents evs)._checkbox = s._checkbox
    rw [ih, fireEvent_checkbox]

/-- Dispatching an appended sequence is dispatching the parts in order. -/
theorem fireEvents_append {π κ α β : Type}
    (s : BetterLabeledCheckbox π κ α) (l l' : List (DGGEvent × List β)) :
    s.fireEvents (l ++ l') = (s.fireEvents l).fireEvents l' := by
  unfold BetterLabeledCheckbox.fireEvents
  rw [List.foldl_append]

/-- The bindings the constructor registers on the checkbox's node. -/
def stdBindings : List (DGGEvent × HandlerTag) :=
  [(DGGEvent.WITHIN, HandlerTag.onNodeEnter),
   (DGGEvent.WITHOUT, HandlerTag.onNodeLeave)]

/-- On a state whose checkbox node carries the constructor's two bindings,
dispatching WITHIN runs exactly the hover-enter handler and dispatching
WITHOUT runs exactly the hover-leave handler. -/
theorem fireEvent_std {π κ α β : Type} (s : BetterLabeledCheckbox π κ α)
    (h : s._checkbox._node.bindings = stdBindings) (args : List β) :
    s.fireEvent DGGEvent.WITHIN args = s._on_node_enter args ∧
    s.fireEvent DGGEvent.WITHOUT args = s._on_node_leave args := by
  unfold BetterLabeledCheckbox.fireEvent
  rw [h]
  exact ⟨rfl, rfl⟩

/-- Re-running the enter handler with any arguments changes nothing. -/
theorem enter_idem {π κ α β : Type} (s : BetterLabeledCheckbox π κ α)
    (args args' : List β) :
    (s._on_node_enter args)._on_node_enter args' = s._on_node_enter args :=
  rfl

/-- Re-running the leave handler with any arguments changes nothing. -/
theorem leave_idem {π κ α β : Type} (s : BetterLabeledCheckbox π κ α)
    (args args' : List β) :
    (s._on_node_leave args)._on_node_leave args' = s._on_node_leave args :=
  rfl

/-- The constructed widget's checkbox node carries exactly the two
constructor bindings. -/
theorem init_bindings {π κ α : Type} (parent : Option π) (x y : Int)
    (chb_callback : Option κ) (chb_args : Option (List α)) (chb_checked : Bool)
    (text : String) (text_size : Int) (radio : Bool)
    (text_color : Option Vec3) (expand_width : Int) :
    (BetterLabeledCheckbox.init parent x y chb_callback chb_args chb_checked
        text text_size radio text_color
        expand_width)._checkbox._node.bindings = stdBindings :=
  rfl

/-- C10: each hover handler accepts and ignores any argument list; after any
event sequence ending with a given hover event, the label's foreground color
is determined by that last event alone (0.5-gray after WITHIN/enter, 0.4-gray
after WITHOUT/leave), and repeating the last invocation with any arguments
leaves the whole state unchanged. -/
theorem claim_C10 {π κ α β : Type} (parent : Option π) (x y : Int)
    (chb_callback : Option κ) (chb_args : Option (List α)) (chb_checked : Bool)
    (text : String) (text_size : Int) (radio : Bool)
    (text_color : Option Vec3) (expand_width : Int)
    (evs : List (DGGEvent × List β)) (e : DGGEvent) (args args' : List β) :
    let w := BetterLabeledCheckbox.init parent x y chb_callback chb_args
      chb_checked text text_size radio text_color expand_width
    ((w.fireEvents (evs ++ [(e, args)]))._text._node.fg =
        if e = DGGEvent.WITHIN then ⟨0.5, 0.5, 0.5, 1.0⟩
        else ⟨0.4, 0.4, 0.4, 1.0⟩) ∧
    w.fireEvents (evs ++ [(e, args), (e, args')]) =
      w.fireEvents (evs ++ [(e, args)]) := by
  intro w
  have hb : ∀ l : List (DGGEvent × List β),
      (w.fireEvents l)._checkbox._node.bindings = stdBindings := by
    intro l
    rw [fireEvents_checkbox]
    rfl
  have hone : ∀ (s : BetterLabeledCheckbox π κ α) (a : List β),
      s.fireEvents [(e, a)] = s.fireEvent e a := fun _ _ => rfl
  have hsplit : evs ++ [(e, args), (e, args')] =
      (evs ++ [(e, args)]) ++ [(e, args')] := by
    simp
  constructor
  · rw [fireEvents_append, hone]
    cases e with
    | WITHIN =>
      rw [(fireEvent_std (w.fireEvents evs) (hb evs) args).1]
      rfl
    | WITHOUT =>
      rw [(fireEvent_std (w.fireEvents evs) (hb evs) args).2]
      rfl
  · rw [hsplit, fireEvents_append, hone, fireEvents_append, hone]
    cases e with
    | WITHIN =>
      rw [(fireEvent_std (w.fireEvents evs) (hb evs) args).1]
      have hb2 : (((w.fireEvents evs)._on_node_enter
          args))._checkbox._node.bindings = stdBindings := by
        have hpres : ((w.fireEvents evs)._on_node_enter args)._checkbox =
            (w.fireEvents evs)._checkbox := rfl
        rw [hpres, fireEvents_checkbox]
        rfl
      rw [(fireEvent_std ((w.fireEvents evs)._on_node_enter args) hb2
          args').1, enter_idem]
    | WITHOUT =>
      rw [(fireEvent_std (w.fireEvents evs) (hb evs) args).2]
      have hb2 : (((w.fireEvents evs)._on_node_leave
          args))._checkbox._node.bindings = stdBindings := by
        have hpres : ((w.fireEvents evs)._on_node_leave args)._checkbox =
            (w.fireEvents evs)._checkbox := rfl
        rw [hpres, fireEvents_checkbox]
        rfl
      rw [(fireEvent_std ((w.fireEvents evs)._on_node_leave args) hb2
          args').2, leave_idem]

end RenderPipeline
